import Mathlib

/-
Shallow embedding of the `point_cloud_transport` sources:
  - src/include/point_cloud_transport/simple_subscriber_plugin.hpp
    (the Subscription Adapter: SimpleSubscriberPlugin)
  - src/src/list_transports.cpp
    (the Transport Registry Inspector: the list_transports tool)
C++ strings are modelled as lists of characters; std::map<std::string, TransportDesc>
is modelled as an association list whose keys stay distinct under operator[] access.
-/

namespace PointCloudTransport

/-- Strings of the C++ sources, modelled as lists of characters. -/
abbrev Str := List Char

/-- Modelled from the spec: the helper `point_cloud_transport::erase_last_copy` is only
declared in `point_cloud_common.hpp`, whose body is not among the sources here; the spec
describes the Transport Identity derivation as stripping the fixed role suffix from a
lookup name that ends in it and leaving any other name unchanged (an idempotent
suffix-strip). -/
def erase_last_copy (input search : Str) : Str :=
  if search <:+ input then input.take (input.length - search.length) else input

/-- Role suffix of publisher-side plugin lookup names. -/
def pub_role : Str := "_pub".toList

/-- Role suffix of subscriber-side plugin lookup names. -/
def sub_role : Str := "_sub".toList

/- ----------------------------------------------------------------
   Subscription Adapter: SimpleSubscriberPlugin<M>
   (simple_subscriber_plugin.hpp)
   ---------------------------------------------------------------- -/

/-- Model of an rclcpp subscription handle: what the Adapter observes of it,
namely get_topic_name() and get_publisher_count(). -/
structure SubscriptionHandle where
  topic_name : Str
  publisher_count : Nat
deriving DecidableEq, Repr

/-- The private Impl struct of SimpleSubscriberPlugin: it holds the one
wire subscription sub_. -/
structure Impl where
  sub_ : SubscriptionHandle
deriving DecidableEq, Repr

/-- State of a SimpleSubscriberPlugin instance: the unique_ptr impl_,
empty (none) when the Adapter is inactive. -/
structure SimpleSubscriberState where
  impl_ : Option Impl
deriving DecidableEq, Repr

/-- Model of the hosting node: create_subscription resolves a topic name to a
live subscription handle. -/
structure NodeModel where
  create_subscription : Str → SubscriptionHandle

/-- getTopic(): the topic name of the wire subscription when impl_ is set, else
the empty string. -/
def getTopic (s : SimpleSubscriberState) : Str :=
  match s.impl_ with
  | some impl => impl.sub_.topic_name
  | none => []

/-- getNumPublishers(): the publisher count of the wire subscription when impl_
is set, else 0. -/
def getNumPublishers (s : SimpleSubscriberState) : Nat :=
  match s.impl_ with
  | some impl => impl.sub_.publisher_count
  | none => 0

/-- shutdown(): impl_.reset(), releasing the wire subscription. -/
def shutdown (_s : SimpleSubscriberState) : SimpleSubscriberState :=
  { impl_ := none }

/-- getTopicToSubscribe(base_topic): base_topic + "/" + getTransportName();
the transport name is the subclass hook, passed here as a parameter. -/
def getTopicToSubscribe (transport_name base_topic : Str) : Str :=
  base_topic ++ "/".toList ++ transport_name

/-- subscribeImpl(node, base_topic, callback, qos): impl_ = make_unique<Impl>() and
impl_->sub_ = node->create_subscription(getTopicToSubscribe(base_topic), ...).
The callback trampoline and the QoS configuration do not affect the state observed
by getTopic/getNumPublishers/shutdown and are not modelled. -/
def subscribeImpl (node : NodeModel) (transport_name base_topic : Str)
    (_s : SimpleSubscriberState) : SimpleSubscriberState :=
  { impl_ := some { sub_ := node.create_subscription (getTopicToSubscribe transport_name base_topic) } }

/- ----------------------------------------------------------------
   Transport Registry Inspector (list_transports.cpp)
   ---------------------------------------------------------------- -/

/-- enum PluginStatus of list_transports.cpp. -/
inductive PluginStatus
  | SUCCESS
  | CREATE_FAILURE
  | LIB_LOAD_FAILURE
  | DOES_NOT_EXIST
deriving DecidableEq, Repr

/-- struct TransportDesc of list_transports.cpp. -/
structure TransportDesc where
  package_name : Str
  pub_name : Str
  pub_status : PluginStatus
  sub_name : Str
  sub_status : PluginStatus
deriving DecidableEq, Repr

/-- Default constructor TransportDesc(): both statuses start as DOES_NOT_EXIST and
the strings default-construct empty. -/
def TransportDesc.init : TransportDesc :=
  { package_name := [], pub_name := [], pub_status := PluginStatus.DOES_NOT_EXIST,
    sub_name := [], sub_status := PluginStatus.DOES_NOT_EXIST }

/-- Outcome of loader.createUniqueInstance(lookup_name): success, or one of the two
distinguished pluginlib exception kinds caught by the tool. -/
inductive CreateResult
  | created
  | libraryLoadExc
  | createClassExc
deriving DecidableEq, Repr

/-- One declared class of a pluginlib ClassLoader registry: its lookup name, the
package getClassPackage reports for it, and how createUniqueInstance behaves on it. -/
structure PluginEntry where
  lookup_name : Str
  package : Str
  create_result : CreateResult
deriving DecidableEq, Repr

/-- The StatusMap typedef: std::map<std::string, TransportDesc>, modelled as an
association list with distinct keys. -/
abbrev StatusMap := List (Str × TransportDesc)

/-- Lookup of a key in the StatusMap (map::find). -/
def mapGet (m : StatusMap) (k : Str) : Option TransportDesc :=
  match m with
  | [] => none
  | (k2, td) :: rest => if k2 = k then some td else mapGet rest k

/-- Access transports[k] and mutate the entry through f: operator[] default-constructs
a TransportDesc when the key is absent. -/
def mapSet (m : StatusMap) (k : Str) (f : TransportDesc → TransportDesc) : StatusMap :=
  match m with
  | [] => [(k, f TransportDesc.init)]
  | (k2, td) :: rest => if k2 = k then (k2, f td) :: rest else (k2, td) :: mapSet rest k f

/-- The keys of the StatusMap. -/
def mapKeys (m : StatusMap) : List Str := m.map Prod.fst

/-- The entry mutated by transports[k]: the present one, or a fresh default. -/
def getOr (m : StatusMap) (k : Str) : TransportDesc :=
  (mapGet m k).getD TransportDesc.init

/-- Classification of the createUniqueInstance outcome by the try/catch of the tool:
success sets SUCCESS, LibraryLoadException sets LIB_LOAD_FAILURE, CreateClassException
sets CREATE_FAILURE. -/
def classify (r : CreateResult) : PluginStatus :=
  match r with
  | CreateResult.created => PluginStatus.SUCCESS
  | CreateResult.libraryLoadExc => PluginStatus.LIB_LOAD_FAILURE
  | CreateResult.createClassExc => PluginStatus.CREATE_FAILURE

/-- Transport Identity derived in the publisher loop:
erase_last_copy(lookup_name, "_pub"). -/
def pub_identity (e : PluginEntry) : Str := erase_last_copy e.lookup_name pub_role

/-- Transport Identity derived in the subscriber loop:
erase_last_copy(lookup_name, "_sub"). -/
def sub_identity (e : PluginEntry) : Str := erase_last_copy e.lookup_name sub_role

/-- Field writes of one publisher-loop iteration on the descriptor of its identity:
pub_name, package_name, then pub_status from the instantiation probe. -/
def pub_update (e : PluginEntry) (td : TransportDesc) : TransportDesc :=
  { td with pub_name := e.lookup_name, package_name := e.package,
            pub_status := classify e.create_result }

/-- Field writes of one subscriber-loop iteration on the descriptor of its identity:
sub_name, package_name, then sub_status from the instantiation probe. -/
def sub_update (e : PluginEntry) (td : TransportDesc) : TransportDesc :=
  { td with sub_name := e.lookup_name, package_name := e.package,
            sub_status := classify e.create_result }

/-- One iteration of the publisher-side loop of main. -/
def processPubEntry (m : StatusMap) (e : PluginEntry) : StatusMap :=
  mapSet m (pub_identity e) (pub_update e)

/-- One iteration of the subscriber-side loop of main. -/
def processSubEntry (m : StatusMap) (e : PluginEntry) : StatusMap :=
  mapSet m (sub_identity e) (sub_update e)

/-- The two enumeration passes of main: the publisher loop over
pub_loader.getDeclaredClasses(), then the subscriber loop over
sub_loader.getDeclaredClasses(), both writing into the same StatusMap. -/
def runPasses (pubs subs : List PluginEntry) : StatusMap :=
  List.foldl processSubEntry (List.foldl processPubEntry [] pubs) subs

/-- The problem test of the summary loop:
(td.pub_status == CREATE_FAILURE || td.pub_status == LIB_LOAD_FAILURE) ||
(td.sub_status == CREATE_FAILURE || td.sub_status == LIB_LOAD_FAILURE). -/
def desc_problem (td : TransportDesc) : Bool :=
  (td.pub_status == PluginStatus.CREATE_FAILURE
    || td.pub_status == PluginStatus.LIB_LOAD_FAILURE)
  || (td.sub_status == PluginStatus.CREATE_FAILURE
    || td.sub_status == PluginStatus.LIB_LOAD_FAILURE)

/-- The problem_package flag: false before the summary loop, set to true at every
descriptor whose problem test fires. -/
def problem_package (m : StatusMap) : Bool :=
  List.foldl (fun acc kv => acc || desc_problem kv.snd) false m

/-- The two remediation hints of the detail loop. -/
inductive RemediationHint
  | builtButNotLoadable
  | notBuilt
deriving DecidableEq, Repr

/-- The hint printed in a detail block: the construction-failure hint when either
role has CREATE_FAILURE, else the not-built hint when either role has
LIB_LOAD_FAILURE, else nothing. -/
def detail_hint (td : TransportDesc) : Option RemediationHint :=
  if td.pub_status = PluginStatus.CREATE_FAILURE
      ∨ td.sub_status = PluginStatus.CREATE_FAILURE then
    some RemediationHint.builtButNotLoadable
  else if td.pub_status = PluginStatus.LIB_LOAD_FAILURE
      ∨ td.sub_status = PluginStatus.LIB_LOAD_FAILURE then
    some RemediationHint.notBuilt
  else none

/-- A role line of a detail block: either the not-provided line or the description
of the recorded lookup name. -/
inductive RoleLine
  | notProvided
  | described (lookup_name : Str)
deriving DecidableEq, Repr

/-- The publisher line of a detail block: "No publisher provided" when pub_status is
DOES_NOT_EXIST, else the description looked up under td.pub_name. -/
def pub_role_line (td : TransportDesc) : RoleLine :=
  if td.pub_status = PluginStatus.DOES_NOT_EXIST then RoleLine.notProvided
  else RoleLine.described td.pub_name

/-- The subscriber line of a detail block: "No subscriber provided" when sub_status is
DOES_NOT_EXIST, else the description looked up under td.sub_name. -/
def sub_role_line (td : TransportDesc) : RoleLine :=
  if td.sub_status = PluginStatus.DOES_NOT_EXIST then RoleLine.notProvided
  else RoleLine.described td.sub_name

/-- What a run of main produces: the merged descriptor table, the problem_package
flag driving the summary markers, and the return value of main. -/
structure InspectorReport where
  transports : StatusMap
  problem : Bool
  exit_code : Int
deriving Repr

/-- The whole of main, for registries enumerating pubs and subs: both passes, the
problem_package computation, and the unconditional return 0. -/
def list_transports_main (pubs subs : List PluginEntry) : InspectorReport :=
  let m := runPasses pubs subs
  { transports := m, problem := problem_package m, exit_code := 0 }

instance : Inhabited TransportDesc := ⟨TransportDesc.init⟩

/-- Generic form of one enumeration loop of main: fold the per-entry descriptor
update over the declared classes of one registry. -/
def foldPass (ident : PluginEntry → Str) (upd : PluginEntry → TransportDesc → TransportDesc)
    (m : StatusMap) (es : List PluginEntry) : StatusMap :=
  List.foldl (fun acc e => mapSet acc (ident e) (upd e)) m es

/-- Demonstration registry entry: publisher-side plugin "raw_pub" of package
"pc_plugins", instantiation succeeds. -/
def rawPubOk : PluginEntry :=
  { lookup_name := "raw_pub".toList, package := "pc_plugins".toList,
    create_result := CreateResult.created }

/-- Demonstration registry entry: publisher-side plugin "raw_pub" whose backing
library fails to load. -/
def rawPubBad : PluginEntry :=
  { lookup_name := "raw_pub".toList, package := "pc_plugins".toList,
    create_result := CreateResult.libraryLoadExc }

/-- Demonstration registry entry: subscriber-side plugin "raw_sub" of a different
package "pc_plugins_alt", instantiation succeeds. -/
def rawSubOk : PluginEntry :=
  { lookup_name := "raw_sub".toList, package := "pc_plugins_alt".toList,
    create_result := CreateResult.created }

/-- Demonstration registry entry: subscriber-side plugin "raw_sub" whose class
construction raises. -/
def rawSubBad : PluginEntry :=
  { lookup_name := "raw_sub".toList, package := "pc_plugins_alt".toList,
    create_result := CreateResult.createClassExc }

/-- Demonstration registry entry: publisher-side plugin "zip_pub" of package
"zip_plugins", instantiation succeeds. -/
def zipPubOk : PluginEntry :=
  { lookup_name := "zip_pub".toList, package := "zip_plugins".toList,
    create_result := CreateResult.created }

/- ----------------------------------------------------------------
   Lemmas about the StatusMap operations
   ---------------------------------------------------------------- -/

theorem mapGet_mapSet_self (m : StatusMap) (k : Str) (f : TransportDesc → TransportDesc) :
    mapGet (mapSet m k f) k = some (f (getOr m k)) := by
  induction m with
  | nil => simp [mapSet, mapGet, getOr]
  | cons kv rest ih =>
    obtain ⟨k2, td⟩ := kv
    by_cases h : k2 = k
    · simp [mapSet, mapGet, getOr, h]
    · simp [mapSet, mapGet, getOr, h, ih]

theorem mapGet_mapSet_ne (m : StatusMap) (k k2 : Str) (f : TransportDesc → TransportDesc)
    (h : k2 ≠ k) : mapGet (mapSet m k f) k2 = mapGet m k2 := by
  have hks : ¬ k = k2 := fun hh => h hh.symm
  induction m with
  | nil => simp [mapSet, mapGet, hks]
  | cons kv rest ih =>
    obtain ⟨k3, td⟩ := kv
    by_cases h3 : k3 = k
    · subst h3
      simp [mapSet, mapGet, hks]
    · simp [mapSet, mapGet, h3, ih]

theorem mem_mapKeys_mapSet (m : StatusMap) (k : Str) (f : TransportDesc → TransportDesc)
    (k2 : Str) : k2 ∈ mapKeys (mapSet m k f) ↔ k2 ∈ mapKeys m ∨ k2 = k := by
  induction m with
  | nil => simp [mapSet, mapKeys, eq_comm]
  | cons kv rest ih =>
    obtain ⟨k3, td⟩ := kv
    by_cases h3 : k3 = k
    · subst h3
      simp only [mapSet, mapKeys, List.map_cons, List.mem_cons, if_true, eq_self_iff_true]
      constructor
      · intro h
        exact Or.inl h
      · rintro ((h | h) | h)
        · exact Or.inl h
        · exact Or.inr h
        · exact Or.inl h
    · simp only [mapSet, if_neg h3, mapKeys, List.map_cons, List.mem_cons] at ih ⊢
      rw [ih]
      tauto

theorem nodup_mapKeys_mapSet (m : StatusMap) (k : Str) (f : TransportDesc → TransportDesc)
    (h : (mapKeys m).Nodup) : (mapKeys (mapSet m k f)).Nodup := by
  induction m with
  | nil => simp [mapSet, mapKeys]
  | cons kv rest ih =>
    obtain ⟨k3, td⟩ := kv
    simp only [mapKeys, List.map_cons, List.nodup_cons] at h
    by_cases h3 : k3 = k
    · subst h3
      simpa only [mapSet, mapKeys, List.map_cons, List.nodup_cons, if_true,
        eq_self_iff_true] using h
    · have htail := ih h.2
      simp only [mapSet, if_neg h3, mapKeys, List.map_cons, List.nodup_cons] at htail ⊢
      refine ⟨fun hm => ?_, htail⟩
      rcases (mem_mapKeys_mapSet rest k f k3).mp hm with hm2 | hm2
      · exact h.1 hm2
      · exact h3 hm2

theorem mapGet_eq_some_mem (m : StatusMap) (k : Str) (td : TransportDesc)
    (h : mapGet m k = some td) : (k, td) ∈ m := by
  induction m with
  | nil => simp [mapGet] at h
  | cons kv rest ih =>
    obtain ⟨k2, td2⟩ := kv
    by_cases h2 : k2 = k
    · subst h2
      simp only [mapGet, Option.some.injEq, if_true, eq_self_iff_true] at h
      simp [h]
    · simp only [mapGet, if_neg h2] at h
      exact List.mem_cons_of_mem _ (ih h)

theorem mapGet_isSome_iff (m : StatusMap) (k : Str) :
    (mapGet m k).isSome ↔ k ∈ mapKeys m := by
  induction m with
  | nil => simp [mapGet, mapKeys]
  | cons kv rest ih =>
    obtain ⟨k2, td2⟩ := kv
    by_cases h2 : k2 = k
    · subst h2
      simp [mapGet, mapKeys]
    · have hks : ¬ k = k2 := fun hh => h2 hh.symm
      simp [mapGet, mapKeys, h2, ih, hks]

theorem mem_mapGet_of_nodup (m : StatusMap) (k : Str) (td : TransportDesc)
    (hnd : (mapKeys m).Nodup) (h : (k, td) ∈ m) : mapGet m k = some td := by
  induction m with
  | nil => simp at h
  | cons kv rest ih =>
    obtain ⟨k2, td2⟩ := kv
    simp only [mapKeys, List.map_cons, List.nodup_cons] at hnd
    rcases List.mem_cons.mp h with h1 | h1
    · rw [Prod.mk.injEq] at h1
      obtain ⟨hk, htd⟩ := h1
      simp [mapGet, hk, htd]
    · have hne : k2 ≠ k := by
        intro he
        subst he
        exact hnd.1 (List.mem_map_of_mem Prod.fst h1)
      simp [mapGet, hne, ih hnd.2 h1]

theorem mem_mapSet_cases (m : StatusMap) (k : Str) (f : TransportDesc → TransportDesc)
    (kv : Str × TransportDesc) (h : kv ∈ mapSet m k f) :
    kv ∈ m ∨ ∃ td0, kv.2 = f td0 ∧ ((k, td0) ∈ m ∨ td0 = TransportDesc.init) := by
  induction m with
  | nil =>
    simp only [mapSet, List.mem_singleton] at h
    exact Or.inr ⟨TransportDesc.init, by simp [h], Or.inr rfl⟩
  | cons kv2 rest ih =>
    obtain ⟨k2, td2⟩ := kv2
    by_cases h2 : k2 = k
    · subst h2
      simp only [mapSet, List.mem_cons, if_true, eq_self_iff_true] at h
      rcases h with h | h
      · exact Or.inr ⟨td2, by simp [h], Or.inl (by simp)⟩
      · exact Or.inl (List.mem_cons_of_mem _ h)
    · simp only [mapSet, if_neg h2, List.mem_cons] at h
      rcases h with h | h
      · exact Or.inl (by simp [h])
      · rcases ih h with h3 | ⟨td0, h3, h4⟩
        · exact Or.inl (List.mem_cons_of_mem _ h3)
        · exact Or.inr ⟨td0, h3, h4.imp_left (List.mem_cons_of_mem _)⟩

/- ----------------------------------------------------------------
   Lemmas about the enumeration passes
   ---------------------------------------------------------------- -/

theorem foldPass_nil (ident : PluginEntry → Str)
    (upd : PluginEntry → TransportDesc → TransportDesc) (m : StatusMap) :
    foldPass ident upd m [] = m := rfl

theorem foldPass_cons (ident : PluginEntry → Str)
    (upd : PluginEntry → TransportDesc → TransportDesc) (m : StatusMap)
    (e : PluginEntry) (rest : List PluginEntry) :
    foldPass ident upd m (e :: rest) = foldPass ident upd (mapSet m (ident e) (upd e)) rest := rfl

theorem runPasses_eq_foldPass (pubs subs : List PluginEntry) :
    runPasses pubs subs =
      foldPass sub_identity sub_update (foldPass pub_identity pub_update [] pubs) subs := rfl

theorem mem_mapKeys_foldPass (ident : PluginEntry → Str)
    (upd : PluginEntry → TransportDesc → TransportDesc) (es : List PluginEntry)
    (m : StatusMap) (k : Str) :
    k ∈ mapKeys (foldPass ident upd m es) ↔ k ∈ mapKeys m ∨ k ∈ es.map ident := by
  induction es generalizing m with
  | nil => simp [foldPass_nil]
  | cons e rest ih =>
    rw [foldPass_cons, ih, mem_mapKeys_mapSet]
    simp only [List.map_cons, List.mem_cons]
    tauto

theorem nodup_mapKeys_foldPass (ident : PluginEntry → Str)
    (upd : PluginEntry → TransportDesc → TransportDesc) (es : List PluginEntry)
    (m : StatusMap) (h : (mapKeys m).Nodup) :
    (mapKeys (foldPass ident upd m es)).Nodup := by
  induction es generalizing m with
  | nil => simpa [foldPass_nil] using h
  | cons e rest ih => exact ih _ (nodup_mapKeys_mapSet _ _ _ h)

theorem mapGet_foldPass_not_mem (ident : PluginEntry → Str)
    (upd : PluginEntry → TransportDesc → TransportDesc) (es : List PluginEntry)
    (m : StatusMap) (k : Str) (h : k ∉ es.map ident) :
    mapGet (foldPass ident upd m es) k = mapGet m k := by
  induction es generalizing m with
  | nil => rfl
  | cons e rest ih =>
    simp only [List.map_cons, List.mem_cons, not_or] at h
    rw [foldPass_cons, ih _ h.2, mapGet_mapSet_ne _ _ _ _ h.1]

theorem mapGet_foldPass_of_mem (ident : PluginEntry → Str)
    (upd : PluginEntry → TransportDesc → TransportDesc) (es : List PluginEntry)
    (m : StatusMap) (e : PluginEntry) (hnd : (es.map ident).Nodup) (he : e ∈ es) :
    ∃ td0, mapGet (foldPass ident upd m es) (ident e) = some (upd e td0) := by
  induction es generalizing m with
  | nil => simp at he
  | cons e1 rest ih =>
    simp only [List.map_cons, List.nodup_cons] at hnd
    rcases List.mem_cons.mp he with he1 | he1
    · subst he1
      refine ⟨getOr m (ident e), ?_⟩
      rw [foldPass_cons, mapGet_foldPass_not_mem _ _ _ _ _ hnd.1, mapGet_mapSet_self]
    · exact ih _ hnd.2 he1

theorem foldPass_preserves {α : Type} (ident : PluginEntry → Str)
    (upd : PluginEntry → TransportDesc → TransportDesc) (proj : TransportDesc → α)
    (hupd : ∀ e td, proj (upd e td) = proj td) (es : List PluginEntry) (m : StatusMap)
    (k : Str) (td : TransportDesc) (h : mapGet (foldPass ident upd m es) k = some td) :
    proj td = proj (getOr m k) := by
  induction es generalizing m with
  | nil =>
    rw [foldPass_nil] at h
    simp [getOr, h]
  | cons e rest ih =>
    rw [foldPass_cons] at h
    rw [ih _ h]
    by_cases hk : k = ident e
    · subst hk
      simp [getOr, mapGet_mapSet_self, hupd]
    · simp [getOr, mapGet_mapSet_ne _ _ _ _ hk]

theorem foldPass_forall (ident : PluginEntry → Str)
    (upd : PluginEntry → TransportDesc → TransportDesc) (P : TransportDesc → Prop)
    (es : List PluginEntry) (m : StatusMap) (hinit : P TransportDesc.init)
    (hupd : ∀ e ∈ es, ∀ td, P td → P (upd e td)) (hm : ∀ kv ∈ m, P kv.2) :
    ∀ kv ∈ foldPass ident upd m es, P kv.2 := by
  induction es generalizing m with
  | nil => simpa [foldPass_nil] using hm
  | cons e rest ih =>
    rw [foldPass_cons]
    refine ih _ (fun e2 he2 => hupd e2 (List.mem_cons_of_mem _ he2)) ?_
    intro kv hkv
    rcases mem_mapSet_cases _ _ _ _ hkv with h1 | ⟨td0, h1, h2⟩
    · exact hm kv h1
    · rw [h1]
      refine hupd e (List.mem_cons_self _ _) td0 ?_
      rcases h2 with h2 | h2
      · exact hm _ h2
      · rw [h2]
        exact hinit

theorem foldl_or_desc (l : StatusMap) (b : Bool) :
    List.foldl (fun acc kv => acc || desc_problem kv.snd) b l
      = (b || l.any fun kv => desc_problem kv.snd) := by
  induction l generalizing b with
  | nil => simp
  | cons kv rest ih => simp [List.foldl_cons, ih, Bool.or_assoc]

theorem problem_package_eq_any (m : StatusMap) :
    problem_package m = m.any fun kv => desc_problem kv.2 := by
  simp [problem_package, foldl_or_desc]

theorem desc_problem_iff (td : TransportDesc) :
    desc_problem td = true ↔
      (td.pub_status = PluginStatus.CREATE_FAILURE
        ∨ td.pub_status = PluginStatus.LIB_LOAD_FAILURE
        ∨ td.sub_status = PluginStatus.CREATE_FAILURE
        ∨ td.sub_status = PluginStatus.LIB_LOAD_FAILURE) := by
  simp only [desc_problem, Bool.or_eq_true, beq_iff_eq]
  tauto

theorem nodup_mapKeys_runPasses (pubs subs : List PluginEntry) :
    (mapKeys (runPasses pubs subs)).Nodup := by
  rw [runPasses_eq_foldPass]
  exact nodup_mapKeys_foldPass _ _ _ _
    (nodup_mapKeys_foldPass _ _ _ _ (by simp [mapKeys]))

theorem sub_update_status_ok (e : PluginEntry) (td : TransportDesc)
    (h : e.create_result = CreateResult.created) (htd : desc_problem td = false) :
    desc_problem (sub_update e td) = false := by
  simp only [desc_problem, sub_update, h, classify, Bool.or_eq_false_iff] at htd ⊢
  exact ⟨htd.1, by simp⟩

theorem pub_update_status_ok (e : PluginEntry) (td : TransportDesc)
    (h : e.create_result = CreateResult.created) (htd : desc_problem td = false) :
    desc_problem (pub_update e td) = false := by
  simp only [desc_problem, pub_update, h, classify, Bool.or_eq_false_iff] at htd ⊢
  exact ⟨by simp, htd.2⟩

theorem runPasses_all_ok (pubs subs : List PluginEntry)
    (hp : ∀ e ∈ pubs, e.create_result = CreateResult.created)
    (hs : ∀ e ∈ subs, e.create_result = CreateResult.created) :
    ∀ kv ∈ runPasses pubs subs, desc_problem kv.2 = false := by
  rw [runPasses_eq_foldPass]
  refine foldPass_forall _ _ (fun td => desc_problem td = false) _ _ rfl
    (fun e he td htd => sub_update_status_ok e td (hs e he) htd) ?_
  exact foldPass_forall _ _ (fun td => desc_problem td = false) _ _ rfl
    (fun e he td htd => pub_update_status_ok e td (hp e he) htd) (by simp)

/- ----------------------------------------------------------------
   Claim theorems
   ---------------------------------------------------------------- -/

/-- Claim C1: for every plugin lookup name ending in the publisher role suffix
"_pub" (resp. the subscriber role suffix "_sub"), the derived Transport Identity
equals the name with that trailing suffix removed exactly once, and for every
lookup name not ending in that suffix the derivation is a no-op returning the
name unchanged. -/
theorem erase_last_copy_suffix_strip (n : Str) :
    (∀ p : Str, n = p ++ pub_role → erase_last_copy n pub_role = p) ∧
    (¬ pub_role <:+ n → erase_last_copy n pub_role = n) ∧
    (∀ p : Str, n = p ++ sub_role → erase_last_copy n sub_role = p) ∧
    (¬ sub_role <:+ n → erase_last_copy n sub_role = n) := by
  refine ⟨?_, ?_, ?_, ?_⟩
  · intro p hp
    subst hp
    rw [erase_last_copy, if_pos (List.suffix_append p pub_role)]
    simp [List.take_left]
  · intro hns
    rw [erase_last_copy, if_neg hns]
  · intro p hp
    subst hp
    rw [erase_last_copy, if_pos (List.suffix_append p sub_role)]
    simp [List.take_left]
  · intro hns
    rw [erase_last_copy, if_neg hns]

/-- Witness for C1 at the concrete lookup names "raw_pub" and "image" of the spec
scenarios: the former strips to "raw", the latter is returned unchanged. -/
theorem erase_last_copy_suffix_strip_witness :
    erase_last_copy "raw_pub".toList pub_role = "raw".toList ∧
    erase_last_copy "image".toList pub_role = "image".toList :=
  ⟨(erase_last_copy_suffix_strip "raw_pub".toList).1 "raw".toList (by decide),
   (erase_last_copy_suffix_strip "image".toList).2.1 (by decide)⟩

/-- Counterexample to claim C2 as stated: an Adapter that has been shut down is not
permanently inert — a later subscribe on the very same instance re-creates the
Subscription Handle and getTopic again reports a live topic. Concrete run: shut
down an Adapter, then run subscribeImpl on a node whose create_subscription
returns a live handle for the resolved topic. -/
theorem subscribe_after_shutdown_recreates_cex :
    (subscribeImpl
        { create_subscription := fun t => { topic_name := t, publisher_count := 1 } }
        "raw".toList "base".toList
        (shutdown { impl_ := some { sub_ := { topic_name := "base/raw".toList,
                                              publisher_count := 1 } } })).impl_.isSome
      = true
    ∧ getTopic (subscribeImpl
        { create_subscription := fun t => { topic_name := t, publisher_count := 1 } }
        "raw".toList "base".toList
        (shutdown { impl_ := some { sub_ := { topic_name := "base/raw".toList,
                                              publisher_count := 1 } } }))
      = "base/raw".toList := by
  exact ⟨rfl, rfl⟩

/-- Claim C2 (amended): once shutdown() has been called the Adapter is inert —
getTopic returns the empty string, getNumPublishers returns 0, and further
shutdown calls leave the state unchanged — but the inertness is not permanent:
a subsequent subscribeImpl re-creates the Subscription Handle from the node and
returns the Adapter to an active state. -/
theorem shutdown_inert_until_resubscribe (s : SimpleSubscriberState)
    (node : NodeModel) (transport_name base_topic : Str) :
    getTopic (shutdown s) = [] ∧
    getNumPublishers (shutdown s) = 0 ∧
    shutdown (shutdown s) = shutdown s ∧
    (subscribeImpl node transport_name base_topic (shutdown s)).impl_
      = some { sub_ := node.create_subscription
                (getTopicToSubscribe transport_name base_topic) } :=
  ⟨rfl, rfl, rfl, rfl⟩

/-- Claim C5: after shutdown() has been called any positive number of times —
including on an already-inactive Adapter — getTopic() returns the empty string and
getNumPublishers() returns 0, regardless of the prior state. -/
theorem shutdown_resets_queries (s : SimpleSubscriberState) (n : Nat) :
    getTopic (shutdown^[n + 1] s) = [] ∧ getNumPublishers (shutdown^[n + 1] s) = 0 := by
  rw [Function.iterate_succ_apply']
  exact ⟨rfl, rfl⟩

/-- Claim C9: for every pair of registry enumerations — in particular ones where
some or all instantiation probes fail — main terminates with exit code 0; problems
are reported only through the problem_package marker of the textual report. -/
theorem main_exit_code_zero (pubs subs : List PluginEntry) :
    (list_transports_main pubs subs).exit_code = 0 := rfl

/-- Claim C10: in a per-identity detail block the construction-failure hint is
printed exactly when either role has status CREATE_FAILURE — even when the other
role has LIB_LOAD_FAILURE — and the not-built hint is printed exactly when no role
has a construction failure and some role has a library-load failure. -/
theorem detail_hint_precedence (td : TransportDesc) :
    (detail_hint td = some RemediationHint.builtButNotLoadable ↔
      (td.pub_status = PluginStatus.CREATE_FAILURE
        ∨ td.sub_status = PluginStatus.CREATE_FAILURE)) ∧
    (detail_hint td = some RemediationHint.notBuilt ↔
      (¬ (td.pub_status = PluginStatus.CREATE_FAILURE
            ∨ td.sub_status = PluginStatus.CREATE_FAILURE)
        ∧ (td.pub_status = PluginStatus.LIB_LOAD_FAILURE
            ∨ td.sub_status = PluginStatus.LIB_LOAD_FAILURE))) := by
  unfold detail_hint
  by_cases h1 : td.pub_status = PluginStatus.CREATE_FAILURE
      ∨ td.sub_status = PluginStatus.CREATE_FAILURE
  · simp [h1]
  · by_cases h2 : td.pub_status = PluginStatus.LIB_LOAD_FAILURE
        ∨ td.sub_status = PluginStatus.LIB_LOAD_FAILURE
    · simp [h1, h2]
    · simp [h1, h2]

/-- Claim C3: for every pair of registry enumerations, the problem_package flag is
true exactly when some merged Transport Descriptor has a publisher or subscriber
status among the two failing statuses (LIB_LOAD_FAILURE, alias
INSTANTIATION_FAILED_LIBRARY, and CREATE_FAILURE, alias
INSTANTIATION_FAILED_CONSTRUCTION); in particular the flag is false when every
declared plugin instantiates successfully. -/
theorem problem_package_iff_failing (pubs subs : List PluginEntry) :
    (problem_package (runPasses pubs subs) = true ↔
      ∃ k td, mapGet (runPasses pubs subs) k = some td ∧
        (td.pub_status = PluginStatus.CREATE_FAILURE
          ∨ td.pub_status = PluginStatus.LIB_LOAD_FAILURE
          ∨ td.sub_status = PluginStatus.CREATE_FAILURE
          ∨ td.sub_status = PluginStatus.LIB_LOAD_FAILURE)) ∧
    ((∀ e ∈ pubs, e.create_result = CreateResult.created) →
      (∀ e ∈ subs, e.create_result = CreateResult.created) →
        problem_package (runPasses pubs subs) = false) := by
  constructor
  · rw [problem_package_eq_any, List.any_eq_true]
    constructor
    · rintro ⟨kv, hmem, hp⟩
      refine ⟨kv.1, kv.2, ?_, (desc_problem_iff kv.2).mp hp⟩
      exact mem_mapGet_of_nodup _ _ _ (nodup_mapKeys_runPasses pubs subs) (by simpa using hmem)
    · rintro ⟨k, td, hget, hst⟩
      exact ⟨(k, td), mapGet_eq_some_mem _ _ _ hget, (desc_problem_iff td).mpr hst⟩
  · intro hp hs
    rw [problem_package_eq_any, List.any_eq_false]
    intro kv hkv
    simp [runPasses_all_ok pubs subs hp hs kv hkv]

/-- Witness for C3 at the healthy demonstration registries of the spec scenario:
publishers raw_pub and zip_pub and subscriber raw_sub all instantiate, so the
problem_package flag is false. -/
theorem problem_package_iff_failing_witness :
    problem_package (runPasses [rawPubOk, zipPubOk] [rawSubOk]) = false :=
  (problem_package_iff_failing [rawPubOk, zipPubOk] [rawSubOk]).2
    (by decide) (by decide)

/-- Claim C4: when instantiation of a plugin fails with either distinguished error
kind, the Inspector records the classified status for that plugin in its
descriptor, keeps processing every remaining plugin, and the merged table still
covers every declared identity of both registries. -/
theorem inspector_records_and_continues (pubs subs : List PluginEntry) :
    ((pubs.map pub_identity).Nodup →
      ∀ e ∈ pubs, ∃ td, mapGet (runPasses pubs subs) (pub_identity e) = some td ∧
        td.pub_status = classify e.create_result ∧ td.pub_name = e.lookup_name) ∧
    ((subs.map sub_identity).Nodup →
      ∀ e ∈ subs, ∃ td, mapGet (runPasses pubs subs) (sub_identity e) = some td ∧
        td.sub_status = classify e.create_result ∧ td.sub_name = e.lookup_name) ∧
    (∀ k : Str, (k ∈ pubs.map pub_identity ∨ k ∈ subs.map sub_identity) →
      k ∈ mapKeys (runPasses pubs subs)) := by
  refine ⟨?_, ?_, ?_⟩
  · intro hnd e he
    rw [runPasses_eq_foldPass]
    obtain ⟨td0, h0⟩ := mapGet_foldPass_of_mem pub_identity pub_update pubs [] e hnd he
    set m1 := foldPass pub_identity pub_update [] pubs with hm1
    have hkey : pub_identity e ∈ mapKeys (foldPass sub_identity sub_update m1 subs) := by
      rw [mem_mapKeys_foldPass]
      exact Or.inl ((mapGet_isSome_iff m1 (pub_identity e)).mp (by rw [h0]; rfl))
    obtain ⟨td2, h2⟩ := Option.isSome_iff_exists.mp
      ((mapGet_isSome_iff _ (pub_identity e)).mpr hkey)
    have hpres := foldPass_preserves sub_identity sub_update
      (fun td => (td.pub_status, td.pub_name)) (fun _ _ => rfl) subs m1
      (pub_identity e) td2 h2
    rw [getOr, h0] at hpres
    simp only [Option.getD_some, pub_update] at hpres
    rw [Prod.mk.injEq] at hpres
    exact ⟨td2, h2, hpres.1, hpres.2⟩
  · intro hnd e he
    rw [runPasses_eq_foldPass]
    obtain ⟨td0, h0⟩ := mapGet_foldPass_of_mem sub_identity sub_update subs _ e hnd he
    exact ⟨sub_update e td0, h0, rfl, rfl⟩
  · intro k hk
    rw [runPasses_eq_foldPass, mem_mapKeys_foldPass, mem_mapKeys_foldPass]
    tauto

/-- Witness for C4: with raw_pub failing to load its library and zip_pub healthy,
the report records LIB_LOAD_FAILURE for identity raw and still contains identity
zip. -/
theorem inspector_records_and_continues_witness :
    (∃ td, mapGet (runPasses [rawPubBad, zipPubOk] []) (pub_identity rawPubBad) = some td ∧
      td.pub_status = classify rawPubBad.create_result ∧
      td.pub_name = rawPubBad.lookup_name) ∧
    "zip".toList ∈ mapKeys (runPasses [rawPubBad, zipPubOk] []) :=
  ⟨(inspector_records_and_continues [rawPubBad, zipPubOk] []).1 (by decide)
      rawPubBad (by decide),
   (inspector_records_and_continues [rawPubBad, zipPubOk] []).2.2
      "zip".toList (Or.inl (by decide))⟩

/-- Claim C6: for an identity declared on both sides, the reported package_name is
the one recorded by the subscriber-side registration, since the subscriber pass
runs after the publisher pass and overwrites the field. -/
theorem package_name_last_writer_sub (pubs subs : List PluginEntry) (e : PluginEntry)
    (hnd : (subs.map sub_identity).Nodup) (he : e ∈ subs)
    (_hboth : ∃ p ∈ pubs, pub_identity p = sub_identity e) :
    ∃ td, mapGet (runPasses pubs subs) (sub_identity e) = some td ∧
      td.package_name = e.package := by
  rw [runPasses_eq_foldPass]
  obtain ⟨td0, h0⟩ := mapGet_foldPass_of_mem sub_identity sub_update subs _ e hnd he
  exact ⟨sub_update e td0, h0, rfl⟩

/-- Witness for C6: identity raw is declared by rawPubOk (package pc_plugins) and by
rawSubOk (package pc_plugins_alt); the merged descriptor reports the
subscriber-side package. -/
theorem package_name_last_writer_sub_witness :
    ∃ td, mapGet (runPasses [rawPubOk] [rawSubOk]) (sub_identity rawSubOk) = some td ∧
      td.package_name = rawSubOk.package :=
  package_name_last_writer_sub [rawPubOk] [rawSubOk] rawSubOk (by decide) (by decide)
    ⟨rawPubOk, by decide, by decide⟩

/-- Claim C7: an identity declared only on the publisher side keeps the default
DOES_NOT_EXIST subscriber status and its detail block prints the subscriber role
as not provided, never as a failure; symmetrically for subscriber-only
identities. -/
theorem undeclared_role_not_provided (pubs subs : List PluginEntry) (k : Str) :
    (k ∈ pubs.map pub_identity → k ∉ subs.map sub_identity →
      ∃ td, mapGet (runPasses pubs subs) k = some td ∧
        td.sub_status = PluginStatus.DOES_NOT_EXIST ∧
        sub_role_line td = RoleLine.notProvided) ∧
    (k ∈ subs.map sub_identity → k ∉ pubs.map pub_identity →
      ∃ td, mapGet (runPasses pubs subs) k = some td ∧
        td.pub_status = PluginStatus.DOES_NOT_EXIST ∧
        pub_role_line td = RoleLine.notProvided) := by
  constructor
  · intro hin hout
    rw [runPasses_eq_foldPass]
    set m1 := foldPass pub_identity pub_update [] pubs with hm1
    have hkey : k ∈ mapKeys m1 := by
      rw [hm1, mem_mapKeys_foldPass]
      exact Or.inr hin
    obtain ⟨td, htd⟩ := Option.isSome_iff_exists.mp ((mapGet_isSome_iff _ k).mpr hkey)
    have hfinal : mapGet (foldPass sub_identity sub_update m1 subs) k = some td := by
      rw [mapGet_foldPass_not_mem _ _ _ _ _ hout, htd]
    have hpres := foldPass_preserves pub_identity pub_update
      (fun td => td.sub_status) (fun _ _ => rfl) pubs [] k td htd
    have hdne : td.sub_status = PluginStatus.DOES_NOT_EXIST := hpres.trans rfl
    refine ⟨td, hfinal, hdne, ?_⟩
    rw [sub_role_line, if_pos hdne]
  · intro hin hout
    rw [runPasses_eq_foldPass]
    set m1 := foldPass pub_identity pub_update [] pubs with hm1
    have hm1k : mapGet m1 k = none := by
      rw [hm1, mapGet_foldPass_not_mem _ _ _ _ _ hout]
      rfl
    have hkey : k ∈ mapKeys (foldPass sub_identity sub_update m1 subs) := by
      rw [mem_mapKeys_foldPass]
      exact Or.inr hin
    obtain ⟨td, htd⟩ := Option.isSome_iff_exists.mp ((mapGet_isSome_iff _ k).mpr hkey)
    have hpres := foldPass_preserves sub_identity sub_update
      (fun td => td.pub_status) (fun _ _ => rfl) subs m1 k td htd
    rw [getOr, hm1k] at hpres
    have hdne : td.pub_status = PluginStatus.DOES_NOT_EXIST := hpres.trans rfl
    refine ⟨td, htd, hdne, ?_⟩
    rw [pub_role_line, if_pos hdne]

/-- Witness for C7 at the publisher-only identity zip of the spec scenario: its
descriptor keeps the DOES_NOT_EXIST subscriber status and the detail block says
the subscriber is not provided. -/
theorem undeclared_role_not_provided_witness :
    ∃ td, mapGet (runPasses [zipPubOk] [rawSubOk]) "zip".toList = some td ∧
      td.sub_status = PluginStatus.DOES_NOT_EXIST ∧
      sub_role_line td = RoleLine.notProvided :=
  (undeclared_role_not_provided [zipPubOk] [rawSubOk] "zip".toList).1
    (by decide) (by decide)

/-- Claim C8: the merged descriptor table of the two passes has exactly one entry
per distinct Transport Identity seen in either registry: its keys are free of
duplicates, and a key occurs in it exactly when it is derived from some declared
lookup name of the publisher or of the subscriber registry. -/
theorem merged_table_unique_complete (pubs subs : List PluginEntry) :
    (mapKeys (runPasses pubs subs)).Nodup ∧
    ∀ k : Str, k ∈ mapKeys (runPasses pubs subs) ↔
      (k ∈ pubs.map pub_identity ∨ k ∈ subs.map sub_identity) := by
  refine ⟨nodup_mapKeys_runPasses pubs subs, fun k => ?_⟩
  rw [runPasses_eq_foldPass, mem_mapKeys_foldPass, mem_mapKeys_foldPass]
  simp [mapKeys]

end PointCloudTransport
